import Mathlib

/-!
Shallow embedding of the FarmAssist backend's temporal-aggregation and
agronomic decision engine (`src/services/weather.ts` and the agricultural
advisory service).

Modelling conventions:
* JS numbers are modelled by `ℚ`; every arithmetic step of the source is
  translated literally (including `Math.round`-style rounding and the JS
  truthiness of `x || d`, which yields `d` exactly when `x` is `0` or `NaN`).
* Calendar-date strings (ISO `YYYY-MM-DD`, which compare lexicographically
  exactly as chronologically) are abstracted to a type `D` with a linear
  order; concrete instances use `ℕ`.
* `Math.sqrt`, a floating-point transcendental, is abstracted to an
  uninterpreted parameter `sqrtFn : ℚ → ℚ` of the one function that uses it.
* Wall-clock reads (`new Date()`) become explicit parameters (`nowHour`);
  ISO timestamp fields of response envelopes are not modelled.
-/

namespace FarmAssist

/-- Weather-condition label attached to a sample (`weather.main/description/icon`). -/
structure WeatherCond where
  main : String
  description : String
  icon : String
deriving DecidableEq, Repr

/-- One normalized 3-hourly forecast (or hourly historical) sample, as built by
`getHourlyForecast` / `getHistoricalWeather` in `weather.ts`. The `datetime`
field is omitted: no aggregation or advisory logic reads it. -/
structure ForecastItem (D : Type) where
  date : D
  temperature : ℚ
  humidity : ℚ
  pressure : ℚ
  windSpeed : ℚ
  precipitation : ℚ
  weather : WeatherCond
deriving DecidableEq

/-- Per-day temperature summary `{min, max, average}`. -/
structure TempSummary where
  min : ℚ
  max : ℚ
  average : ℚ
deriving DecidableEq, Repr

/-- One entry of the `DailyForecast.forecast` / `HistoricalDailyWeather.data`
arrays produced by daily aggregation in `weather.ts`. -/
structure DailyAgg (D : Type) where
  date : D
  temperature : TempSummary
  humidity : ℤ
  pressure : ℤ
  windSpeed : ℚ
  precipitation : ℚ
  weather : WeatherCond
deriving DecidableEq

/-- JS `Math.round`: round half toward positive infinity. -/
def jsRound (x : ℚ) : ℤ := ⌊x + 1/2⌋

/-- `Math.round(x * 100) / 100`, the two-decimal rounding used for wind speed
and precipitation in the daily aggregation. -/
def round2 (x : ℚ) : ℚ := (jsRound (x * 100) : ℚ) / 100

/-- `Math.min(...l)` for a spread non-empty list (left fold of binary `min`).
JS returns `Infinity` on an empty spread; the `[]` case below is junk (`0`)
and is never reached from a non-empty day group. -/
def listMin : List ℚ → ℚ
  | [] => 0
  | t :: ts => ts.foldl min t

/-- `Math.max(...l)`, analogously to `listMin`. -/
def listMax : List ℚ → ℚ
  | [] => 0
  | t :: ts => ts.foldl max t

/-- `l.reduce((sum, x) => sum + x, 0)`. -/
def listSum (l : List ℚ) : ℚ := l.foldl (fun s x => s + x) 0

section Aggregation

variable {D : Type} [DecidableEq D]

/-- One step of the `dailyMap` construction in `getDailyForecast` /
`getHistoricalDailyWeather`: push the sample onto the group of its date,
creating a fresh group at the end of the insertion-ordered map when the date
is new (JS `Map` iterates in insertion order). -/
def insertSample : List (D × List (ForecastItem D)) → ForecastItem D →
    List (D × List (ForecastItem D))
  | [], s => [(s.date, [s])]
  | (d, g) :: rest, s =>
      if d = s.date then (d, g ++ [s]) :: rest else (d, g) :: insertSample rest s

/-- The `dailyMap` of `getDailyForecast` / `getHistoricalDailyWeather`:
group the samples by their `date` field, preserving insertion order of both
keys and group members (`forEach` + `Map.set`/`push`). -/
def groupByDate (samples : List (ForecastItem D)) : List (D × List (ForecastItem D)) :=
  samples.foldl insertSample []

/-- The per-group body of the daily aggregation: min/max/average temperature,
rounded average humidity/pressure, 2-decimal average wind speed and
precipitation sum, and the median-indexed (`items[floor(length/2)]`) sample's
condition. The `getD` default is only relevant to the unreachable empty-group
case. -/
def mkDailyAgg (date : D) (items : List (ForecastItem D)) : DailyAgg D :=
  let temperatures := items.map (·.temperature)
  let precipitationSum := items.foldl (fun s i => s + i.precipitation) (0 : ℚ)
  let avgHumidity := items.foldl (fun s i => s + i.humidity) (0 : ℚ) / (items.length : ℚ)
  let avgPressure := items.foldl (fun s i => s + i.pressure) (0 : ℚ) / (items.length : ℚ)
  let avgWindSpeed := items.foldl (fun s i => s + i.windSpeed) (0 : ℚ) / (items.length : ℚ)
  { date := date
    temperature :=
      { min := listMin temperatures
        max := listMax temperatures
        average := temperatures.foldl (fun s t => s + t) (0 : ℚ) / (temperatures.length : ℚ) }
    humidity := jsRound avgHumidity
    pressure := jsRound avgPressure
    windSpeed := round2 avgWindSpeed
    precipitation := round2 precipitationSum
    weather := (items.getD (items.length / 2) ⟨date, 0, 0, 0, 0, 0, ⟨"", "", ""⟩⟩).weather }

/-- `getDailyForecast` (`weather.ts` lines 287-351), restricted to its pure
aggregation core: group the hourly samples by date and summarize each group,
in `Map` insertion order (no sort). -/
def getDailyForecast (samples : List (ForecastItem D)) : List (DailyAgg D) :=
  (groupByDate samples).map fun p => mkDailyAgg p.1 p.2

end Aggregation

/-- `getHistoricalDailyWeather` (`weather.ts` lines 487-551), pure aggregation
core: identical grouping and summarization, followed by
`.sort((a, b) => a.date.localeCompare(b.date))` — a stable ascending sort on
the date key. -/
def getHistoricalDailyWeather {D : Type} [LinearOrder D]
    (samples : List (ForecastItem D)) : List (DailyAgg D) :=
  ((groupByDate samples).map fun p => mkDailyAgg p.1 p.2).mergeSort
    fun a b => decide (a.date ≤ b.date)

/-- The `current` record consumed by the advisory classifiers (the fields of
`CurrentWeather.current` that they read). -/
structure CurrentData where
  temperature : ℚ
  humidity : ℚ
  windSpeed : ℚ
deriving DecidableEq, Repr

/-- `FrostAlert.risk` tiers. -/
inductive FrostRisk where
  | none | low | moderate | high | critical
deriving DecidableEq, Repr

/-- `FrostAlert` (message/action/timeframe strings are the source's literals). -/
structure FrostAlert where
  risk : FrostRisk
  message : String
  action : String
  timeframe : String
  temperature : ℚ
deriving DecidableEq, Repr

/-- `analyzeFrostRisk`: minimum temperature over the first 8 forecast samples,
mapped through the ≤-2 / ≤0 / ≤2 / ≤5 cascade. The `currentTemp` argument is
accepted but (as in the source) never read. For an empty forecast JS computes
`Math.min() = Infinity`, which falls through every `≤` test into the final
branch; `ℚ` has no infinity, so that unreachable-in-practice case reports the
same "none" tier with `0` in place of `Infinity`. -/
def analyzeFrostRisk {D : Type} (currentTemp : ℚ)
    (forecastData : List (ForecastItem D)) : FrostAlert :=
  let _ := currentTemp
  let minTemps := (forecastData.take 8).map (·.temperature)
  match minTemps with
  | [] =>
      { risk := .none, message := "No frost risk detected"
        action := "Continue normal farming activities"
        timeframe := "Next 5 days", temperature := 0 }
  | t :: ts =>
      let lowestTemp := ts.foldl min t
      if lowestTemp ≤ -2 then
        { risk := .critical, message := "Severe frost expected - immediate action required"
          action := "Cover all sensitive crops, use frost protection methods, move potted plants indoors"
          timeframe := "Within next 6-12 hours", temperature := lowestTemp }
      else if lowestTemp ≤ 0 then
        { risk := .high, message := "Hard frost likely - protect vulnerable crops"
          action := "Cover young plants, drain irrigation lines, harvest sensitive crops"
          timeframe := "Within next 12-24 hours", temperature := lowestTemp }
      else if lowestTemp ≤ 2 then
        { risk := .moderate, message := "Light frost possible - monitor closely"
          action := "Prepare frost protection materials, monitor weather updates"
          timeframe := "Within next 24-48 hours", temperature := lowestTemp }
      else if lowestTemp ≤ 5 then
        { risk := .low, message := "Cool temperatures ahead - minimal frost risk"
          action := "Normal operations, keep frost protection ready"
          timeframe := "Next 2-3 days", temperature := lowestTemp }
      else
        { risk := .none, message := "No frost risk detected"
          action := "Continue normal farming activities"
          timeframe := "Next 5 days", temperature := lowestTemp }

/-- `IrrigationAdvice.recommendation` values. -/
inductive IrrigationRec where
  | immediate | within24h | within48h | skip | monitor
deriving DecidableEq, Repr

/-- `IrrigationAdvice`. The `reason` string, which interpolates numeric values
into prose, is not modelled; the enum and the fixed strings are. -/
structure IrrigationAdvice where
  recommendation : IrrigationRec
  message : String
  nextCheck : String
  waterAmount : String
deriving DecidableEq, Repr

/-- `generateIrrigationAdvice`: rain over the next 16 samples (JS
`item.precipitation || 0` is the identity on a number that is present, since
`0 || 0 = 0`) pre-empts everything at > 5 mm; otherwise the extreme / high /
moderate water-stress cascade on current temperature and humidity. -/
def generateIrrigationAdvice {D : Type} (currentWeather : CurrentData)
    (forecastData : List (ForecastItem D)) : IrrigationAdvice :=
  let currentTemp := currentWeather.temperature
  let currentHumidity := currentWeather.humidity
  let totalRain := (forecastData.take 16).foldl (fun s i => s + i.precipitation) (0 : ℚ)
  let significantRain := 5 < totalRain
  let waterStress := 25 < currentTemp ∧ currentHumidity < 50
  let highWaterStress := 30 < currentTemp ∧ currentHumidity < 40
  let extremeWaterStress := 35 < currentTemp ∧ currentHumidity < 35
  if significantRain then
    { recommendation := .skip, message := "Skip irrigation - adequate rainfall expected"
      nextCheck := "Check again after rainfall", waterAmount := "" }
  else if extremeWaterStress then
    { recommendation := .immediate
      message := "Immediate irrigation required - extreme heat stress conditions"
      nextCheck := "Monitor every 6 hours"
      waterAmount := "Deep watering recommended - 25-30mm equivalent" }
  else if highWaterStress then
    { recommendation := .within24h
      message := "Irrigation needed within 24 hours - high stress conditions"
      nextCheck := "Check again in 12 hours"
      waterAmount := "Regular watering - 15-20mm equivalent" }
  else if waterStress then
    { recommendation := .within48h
      message := "Plan irrigation within 48 hours - moderate stress detected"
      nextCheck := "Check again in 24 hours"
      waterAmount := "Light watering - 10-15mm equivalent" }
  else
    { recommendation := .monitor
      message := "Continue monitoring - current conditions adequate"
      nextCheck := "Check again in 24 hours", waterAmount := "" }

/-- `SprayingWindow`. `reason` (numeric interpolation) is not modelled. -/
structure SprayingWindow where
  suitable : Bool
  message : String
  bestTime : String
  nextOpportunity : String
deriving DecidableEq, Repr

/-- The good-window predicate of `analyzeSprayingConditions`:
`windSpeed < 15 && (precipitation || 0) === 0 && 10 < temperature < 30`. -/
def goodWindow {D : Type} (item : ForecastItem D) : Prop :=
  item.windSpeed < 15 ∧ item.precipitation = 0 ∧
    10 < item.temperature ∧ item.temperature < 30

instance {D : Type} (item : ForecastItem D) : Decidable (goodWindow item) := by
  unfold goodWindow; infer_instance

/-- `analyzeSprayingConditions`.  `nowHour = new Date().getHours()` is passed
in explicitly.  Note that in the suitable branch the JS `filter((_, index) =>
...)` callback receives the index *within the already-filtered `goodWindows`
array*, not the sample's offset within `next24h`. -/
def analyzeSprayingConditions {D : Type} [DecidableEq D] (nowHour : ℕ)
    (currentWeather : CurrentData) (forecastData : List (ForecastItem D)) :
    SprayingWindow :=
  let currentWind := currentWeather.windSpeed
  let currentTemp := currentWeather.temperature
  let next24h := forecastData.take 8
  let goodWindows := next24h.filter fun item => decide (goodWindow item)
  if 20 < currentWind then
    { suitable := false
      message := "Spraying not recommended - wind too strong"
      bestTime := ""
      nextOpportunity :=
        match goodWindows.head? with
        | some g =>
            let hours := (next24h.findIdx fun x => decide (x = g)) * 3
            "Next opportunity in " ++ toString hours ++ " hours"
        | none => "Check forecast tomorrow" }
  else if 30 < currentTemp then
    { suitable := false
      message := "Spraying not recommended - temperature too high"
      bestTime := ""
      nextOpportunity := "Wait for cooler conditions (early morning/evening)" }
  else if 0 < goodWindows.length then
    let morningWindows := goodWindows.enum.filter fun p =>
      decide (6 ≤ (nowHour + p.1 * 3) % 24 ∧ (nowHour + p.1 * 3) % 24 ≤ 10)
    { suitable := true
      message := "Good spraying conditions available"
      bestTime :=
        if 0 < morningWindows.length then
          "Early morning (6-10 AM) recommended for optimal results"
        else "Current conditions suitable - spray when convenient"
      nextOpportunity := "" }
  else
    { suitable := false
      message := "Poor spraying conditions - wait for better weather"
      bestTime := ""
      nextOpportunity := "Check forecast again in 12 hours" }

/-- `HeatStressAlert.risk` tiers. -/
inductive HeatRisk where
  | none | low | moderate | high | extreme
deriving DecidableEq, Repr

/-- `HeatStressAlert`. -/
structure HeatStressAlert where
  risk : HeatRisk
  message : String
  action : String
  duration : String
  temperature : ℚ
deriving DecidableEq, Repr

/-- `assessHeatStress`. The dead local `heatIndex` of the source is computed
by nothing and not modelled; `duration` counts all forecast samples above
30 °C. -/
def assessHeatStress {D : Type} (currentWeather : CurrentData)
    (forecastData : List (ForecastItem D)) : HeatStressAlert :=
  let currentTemp := currentWeather.temperature
  let currentHumidity := currentWeather.humidity
  let highTempPeriods := (forecastData.filter fun i => decide (30 < i.temperature)).length
  let duration := toString (highTempPeriods * 3) ++ " hours of elevated temperatures expected"
  if 40 < currentTemp ∨ (35 < currentTemp ∧ 70 < currentHumidity) then
    { risk := .extreme, message := "Extreme heat stress - immediate action required"
      action := "Increase irrigation frequency, provide shade, harvest heat-sensitive crops immediately"
      duration := duration, temperature := currentTemp }
  else if 35 < currentTemp ∨ (30 < currentTemp ∧ 80 < currentHumidity) then
    { risk := .high, message := "High heat stress - crops need protection"
      action := "Increase irrigation, apply mulch, avoid field work during peak heat"
      duration := duration, temperature := currentTemp }
  else if 30 < currentTemp ∨ (25 < currentTemp ∧ 85 < currentHumidity) then
    { risk := .moderate, message := "Moderate heat stress - monitor crops closely"
      action := "Ensure adequate water supply, consider morning/evening irrigation"
      duration := duration, temperature := currentTemp }
  else if 25 < currentTemp then
    { risk := .low, message := "Mild heat stress possible - maintain normal care"
      action := "Continue regular irrigation schedule, monitor plant health"
      duration := duration, temperature := currentTemp }
  else
    { risk := .none, message := "No heat stress detected"
      action := "Normal growing conditions - continue standard practices"
      duration := duration, temperature := currentTemp }

/-- `CropAdvisory.priority` values. -/
inductive Priority where
  | low | medium | high | urgent
deriving DecidableEq, Repr

/-- Advice line pushed by the urgent branch of `generateOverallAdvice`. -/
def urgentLine : String := "Urgent action required - check all alerts immediately"

/-- Advice line pushed by the high branch. -/
def highLine : String := "High priority - address within 24 hours"

/-- Advice line pushed by the medium branch. -/
def mediumLine : String := "Medium priority - plan accordingly"

/-- Advice line pushed when spraying is suitable. -/
def sprayLine : String := "Good conditions for pesticide/herbicide application"

/-- Advice line pushed when irrigation is skipped for rain. -/
def rainLine : String := "Rain expected - save on irrigation costs"

/-- Advice line pushed when both frost and heat-stress risks are "none". -/
def optimalLine : String := "Optimal growing conditions - ideal for field work"

/-- The unconditional closing advice line. -/
def updatesLine : String := "Check updates every 12-24 hours for changing conditions"

/-- `generateOverallAdvice`: one priority from the urgent/high/medium cascade
(with its matching advice line), then the independent advice pushes. Leading
emoji of the source's strings are dropped; the text is otherwise the
source's. -/
def generateOverallAdvice (frost : FrostAlert) (irrigation : IrrigationAdvice)
    (spraying : SprayingWindow) (heatStress : HeatStressAlert) :
    Priority × List String :=
  let head : Priority × List String :=
    if frost.risk = .critical ∨ heatStress.risk = .extreme ∨
        irrigation.recommendation = .immediate then
      (.urgent, [urgentLine])
    else if frost.risk = .high ∨ heatStress.risk = .high ∨
        irrigation.recommendation = .within24h then
      (.high, [highLine])
    else if frost.risk = .moderate ∨ heatStress.risk = .moderate ∨
        irrigation.recommendation = .within48h then
      (.medium, [mediumLine])
    else (.low, [])
  (head.1,
    head.2
      ++ (if spraying.suitable then [sprayLine] else [])
      ++ (if irrigation.recommendation = .skip then [rainLine] else [])
      ++ (if frost.risk = .none ∧ heatStress.risk = .none then [optimalLine] else [])
      ++ [updatesLine])

/-- `calculateGrowingDegreeDays` (`weather.ts` lines 556-562): cumulative GDD
over the historical daily sequence, `reduce` of `max(0, average − baseTemp)`.
The TS parameter default `baseTemp = 10` is `calculateGrowingDegreeDaysDefault`. -/
def calculateGrowingDegreeDays {D : Type} (data : List (DailyAgg D))
    (baseTemp : ℚ) : ℚ :=
  data.foldl (fun total day => total + max 0 (day.temperature.average - baseTemp)) 0

/-- `calculateGrowingDegreeDays` applied at its TS default `baseTemp = 10`. -/
def calculateGrowingDegreeDaysDefault {D : Type} (data : List (DailyAgg D)) : ℚ :=
  calculateGrowingDegreeDays data 10

/-- The argument passed to `Math.sqrt` in `calculateAgriculturalInsights`
(`weather.ts` line 578):
`Math.abs(forecast[0]?.temperature.max - forecast[0]?.temperature.min || 10)`.
By JS precedence this is `abs((max − min) || 10)`: when the first aggregate is
absent the subtraction is `NaN` and `||` yields `10`; when it is present but
`max − min` is `0` (falsy), `||` also yields `10`. -/
def etRangeArg {D : Type} : List (DailyAgg D) → ℚ
  | [] => 10
  | d :: _ =>
      |if d.temperature.max - d.temperature.min = 0 then (10 : ℚ)
       else d.temperature.max - d.temperature.min|

/-- `AgriculturalInsights`. -/
structure AgriculturalInsights where
  growingDegreeDays : ℚ
  evapotranspiration : ℚ
  soilTemperature : ℚ
  frostRisk : Bool
  irrigationRecommendation : String
  sprayingWindow : Bool
  heatStress : Bool
deriving DecidableEq, Repr

/-- `calculateAgriculturalInsights` (`weather.ts` lines 567-614).  `Math.sqrt`
(a float transcendental) is abstracted to the parameter `sqrtFn`; everything
else is the source formula verbatim. -/
def calculateAgriculturalInsights {D : Type} (sqrtFn : ℚ → ℚ)
    (current : CurrentData) (forecast : List (DailyAgg D)) :
    AgriculturalInsights :=
  let temp := current.temperature
  let humidity := current.humidity
  let windSpeed := current.windSpeed
  let baseTemp : ℚ := 10
  let growingDegreeDays := max 0 (temp - baseTemp)
  let evapotranspiration := max 0
    ((0.0023 * (temp + 17.8) * sqrtFn (etRangeArg forecast) *
      (temp + 273.16) / 273.16) * 2.45)
  let soilTemperature := temp * 0.85
  let frostRisk := (forecast.take 3).any fun day => decide (day.temperature.min < 2)
  let irrigationRecommendation :=
    if humidity < 40 ∧ 25 < temp then "High need"
    else if humidity < 60 ∧ 20 < temp then "Moderate need"
    else if 80 < humidity then "Low need"
    else "Monitor"
  let sprayingWindow := decide (windSpeed < 15) &&
    !((forecast.take 1).any fun day => decide (0 < day.precipitation))
  let heatStress := decide (35 < temp ∨ (30 < temp ∧ 70 < humidity))
  { growingDegreeDays := growingDegreeDays
    evapotranspiration := evapotranspiration
    soilTemperature := soilTemperature
    frostRisk := frostRisk
    irrigationRecommendation := irrigationRecommendation
    sprayingWindow := sprayingWindow
    heatStress := heatStress }

/-- The `{success, data?, error?}` response envelope (ISO timestamps are not
modelled; every envelope in the source also carries one). -/
structure Envelope (α : Type) where
  success : Bool
  data : Option α
  error : Option String
deriving DecidableEq

/-- `CurrentWeather.location` fields read by the advisory. -/
structure LocationInfo where
  name : String
  lat : ℚ
  lon : ℚ
deriving DecidableEq, Repr

/-- The part of a successful `getCurrentWeather` payload the advisory reads. -/
structure CurrentPayload where
  location : LocationInfo
  current : CurrentData
deriving DecidableEq, Repr

/-- The part of a successful `getHourlyForecast` payload the advisory reads. -/
structure ForecastPayload (D : Type) where
  forecast : List (ForecastItem D)
deriving DecidableEq

/-- `CropAdvisory` (the `lastUpdated` timestamp is not modelled). -/
structure CropAdvisory where
  location : LocationInfo
  frost : FrostAlert
  irrigation : IrrigationAdvice
  spraying : SprayingWindow
  heatStress : HeatStressAlert
  generalAdvice : List String
  priority : Priority
deriving DecidableEq

/-- Error message thrown by `getCropAdvisory` when a fetch is unsuccessful. -/
def fetchFailMsg : String := "Failed to fetch weather data for analysis"

/-- Stand-in for the `TypeError` message produced when a `success: true`
envelope unexpectedly carries no `data` and the non-null assertion's target is
dereferenced; the `catch` turns it into the error string of the envelope. -/
def missingDataMsg : String := "Cannot read properties of undefined"

/-- `getCropAdvisory` (part_001 lines 331-384) as a pure function of the two
fetch results (the `Promise.all` join) plus the wall-clock hour: any
unsuccessful fetch, or a missing payload, lands in the `catch` and produces a
`success: false` envelope; otherwise the four classifiers and the synthesizer
run and a `success: true` envelope is returned. -/
def getCropAdvisory {D : Type} [DecidableEq D] (nowHour : ℕ)
    (currentWeather : Envelope CurrentPayload)
    (hourlyForecast : Envelope (ForecastPayload D)) : Envelope CropAdvisory :=
  if currentWeather.success = false ∨ hourlyForecast.success = false then
    { success := false, data := none, error := some fetchFailMsg }
  else
    match currentWeather.data, hourlyForecast.data with
    | some cw, some fcp =>
        let current := cw.current
        let forecast := fcp.forecast
        let frost := analyzeFrostRisk current.temperature forecast
        let irrigation := generateIrrigationAdvice current forecast
        let spraying := analyzeSprayingConditions nowHour current forecast
        let heatStress := assessHeatStress current forecast
        let overall := generateOverallAdvice frost irrigation spraying heatStress
        { success := true
          data := some
            { location := cw.location
              frost := frost, irrigation := irrigation, spraying := spraying
              heatStress := heatStress
              generalAdvice := overall.2, priority := overall.1 }
          error := none }
    | _, _ => { success := false, data := none, error := some missingDataMsg }

/-- `getFrostAlert` (part_001 lines 389-403) as a pure function of the two
fetch results. Only the forecast fetch is success-checked; the current-weather
result is read through `current.data?.current.temperature || 20`, so an
unsuccessful current fetch — or a (falsy) current temperature of exactly `0` —
silently becomes the default `20`, which `analyzeFrostRisk` then ignores
anyway. -/
def getFrostAlert {D : Type}
    (currentWeather : Envelope CurrentPayload)
    (hourlyForecast : Envelope (ForecastPayload D)) : Envelope FrostAlert :=
  if hourlyForecast.success = false then
    { success := false, data := none, error := some "Weather data unavailable" }
  else
    match hourlyForecast.data with
    | none => { success := false, data := none, error := some missingDataMsg }
    | some fcp =>
        let currentTemp :=
          match currentWeather.data with
          | none => (20 : ℚ)
          | some cw =>
              if cw.current.temperature = 0 then 20 else cw.current.temperature
        { success := true
          data := some (analyzeFrostRisk currentTemp fcp.forecast)
          error := none }

/-- `getIrrigationAdvice` (part_001 lines 408-423) as a pure function of the
two fetch results: both fetches are success-checked before
`generateIrrigationAdvice` runs. -/
def getIrrigationAdvice {D : Type}
    (currentWeather : Envelope CurrentPayload)
    (hourlyForecast : Envelope (ForecastPayload D)) : Envelope IrrigationAdvice :=
  if currentWeather.success = false ∨ hourlyForecast.success = false then
    { success := false, data := none, error := some "Weather data unavailable" }
  else
    match currentWeather.data, hourlyForecast.data with
    | some cw, some fcp =>
        { success := true
          data := some (generateIrrigationAdvice cw.current fcp.forecast)
          error := none }
    | _, _ => { success := false, data := none, error := some missingDataMsg }

/-- Concrete sample constructor for instantiating the generic date type at
`ℕ` in examples and counterexamples. -/
def mkItem (date : ℕ) (temp hum wind precip : ℚ) : ForecastItem ℕ :=
  ⟨date, temp, hum, 1000, wind, precip, ⟨"Clear", "clear sky", "01d"⟩⟩

/-- Concrete daily-aggregate constructor for examples and counterexamples. -/
def mkDay (date : ℕ) (tmin tmax tavg : ℚ) : DailyAgg ℕ :=
  ⟨date, ⟨tmin, tmax, tavg⟩, 50, 1000, 5, 0, ⟨"Clear", "clear sky", "01d"⟩⟩

/-- Concrete current-measurement constructor for examples. -/
def mkCur (temp hum wind : ℚ) : CurrentData := ⟨temp, hum, wind⟩

/-! ### Shared helper lemmas -/

/-- `reduce((s, x) => s + f(x), a)` accumulates the sum of the mapped list. -/
theorem foldl_add_map {α : Type} (f : α → ℚ) :
    ∀ (l : List α) (a : ℚ), l.foldl (fun s x => s + f x) a = a + (l.map f).sum := by
  intro l
  induction l with
  | nil => simp
  | cons x xs ih => intro a; simp [ih]; ring

/-- The left fold of binary `min` (JS `Math.min(...)`) is a lower bound and is
attained by one of the inputs. -/
theorem foldl_min_spec :
    ∀ (ts : List ℚ) (t : ℚ),
      (ts.foldl min t ≤ t ∧ ∀ x ∈ ts, ts.foldl min t ≤ x) ∧ ts.foldl min t ∈ t :: ts := by
  intro ts
  induction ts with
  | nil => simp
  | cons y ys ih =>
      intro t
      have h := ih (min t y)
      refine ⟨⟨le_trans h.1.1 (min_le_left t y), ?_⟩, ?_⟩
      · intro x hx
        rcases List.mem_cons.mp hx with hxy | hxm
        · subst hxy; exact le_trans h.1.1 (min_le_right t x)
        · exact h.1.2 x hxm
      · rcases List.mem_cons.mp h.2 with he | hm
        · rcases min_choice t y with hc | hc <;> rw [List.foldl_cons, he, hc] <;> simp
        · simp [List.foldl_cons, hm]

/-- The left fold of binary `max` (JS `Math.max(...)`) is an upper bound and is
attained by one of the inputs. -/
theorem foldl_max_spec :
    ∀ (ts : List ℚ) (t : ℚ),
      (t ≤ ts.foldl max t ∧ ∀ x ∈ ts, x ≤ ts.foldl max t) ∧ ts.foldl max t ∈ t :: ts := by
  intro ts
  induction ts with
  | nil => simp
  | cons y ys ih =>
      intro t
      have h := ih (max t y)
      refine ⟨⟨le_trans (le_max_left t y) h.1.1, ?_⟩, ?_⟩
      · intro x hx
        rcases List.mem_cons.mp hx with hxy | hxm
        · subst hxy; exact le_trans (le_max_right t x) h.1.1
        · exact h.1.2 x hxm
      · rcases List.mem_cons.mp h.2 with he | hm
        · rcases max_choice t y with hc | hc <;> rw [List.foldl_cons, he, hc] <;> simp
        · simp [List.foldl_cons, hm]

/-- A list is bounded below elementwise by `m`, so its sum is at least
`length * m`. -/
theorem length_mul_le_sum :
    ∀ (l : List ℚ) (m : ℚ), (∀ x ∈ l, m ≤ x) → (l.length : ℚ) * m ≤ l.sum := by
  intro l
  induction l with
  | nil => simp
  | cons x xs ih =>
      intro m hm
      have h1 : m ≤ x := hm x (List.mem_cons_self x xs)
      have h2 : (xs.length : ℚ) * m ≤ xs.sum := ih m fun y hy => hm y (List.mem_cons_of_mem x hy)
      simp only [List.sum_cons, List.length_cons]
      push_cast
      nlinarith

/-- A list is bounded above elementwise by `m`, so its sum is at most
`length * m`. -/
theorem sum_le_length_mul :
    ∀ (l : List ℚ) (m : ℚ), (∀ x ∈ l, x ≤ m) → l.sum ≤ (l.length : ℚ) * m := by
  intro l
  induction l with
  | nil => simp
  | cons x xs ih =>
      intro m hm
      have h1 : x ≤ m := hm x (List.mem_cons_self x xs)
      have h2 : xs.sum ≤ (xs.length : ℚ) * m := ih m fun y hy => hm y (List.mem_cons_of_mem x hy)
      simp only [List.sum_cons, List.length_cons]
      push_cast
      nlinarith

/-! ### Claim theorems -/

/-- C9: instantaneous GDD in `calculateAgriculturalInsights` is
`max 0 (T_current − 10)` and non-negative; cumulative GDD in
`calculateGrowingDegreeDays` is the sum over the historical daily sequence of
`max 0 (average − baseTemp)` (base defaulting to 10) and non-negative; and
each per-day contribution is non-negative and vanishes whenever the day's
average temperature is at most the base. -/
theorem C9_growing_degree_days (D : Type) :
    (∀ (sqrtFn : ℚ → ℚ) (current : CurrentData) (forecast : List (DailyAgg D)),
        (calculateAgriculturalInsights sqrtFn current forecast).growingDegreeDays
          = max 0 (current.temperature - 10)
      ∧ 0 ≤ (calculateAgriculturalInsights sqrtFn current forecast).growingDegreeDays)
  ∧ (∀ (data : List (DailyAgg D)) (baseTemp : ℚ),
        calculateGrowingDegreeDays data baseTemp
          = (data.map fun day => max 0 (day.temperature.average - baseTemp)).sum
      ∧ 0 ≤ calculateGrowingDegreeDays data baseTemp)
  ∧ (∀ data : List (DailyAgg D),
        calculateGrowingDegreeDaysDefault data = calculateGrowingDegreeDays data 10)
  ∧ (∀ (day : DailyAgg D) (baseTemp : ℚ),
        0 ≤ calculateGrowingDegreeDays [day] baseTemp
      ∧ (day.temperature.average ≤ baseTemp →
          calculateGrowingDegreeDays [day] baseTemp = 0)) := by
  have hsum : ∀ (data : List (DailyAgg D)) (baseTemp : ℚ),
      calculateGrowingDegreeDays data baseTemp
        = (data.map fun day => max 0 (day.temperature.average - baseTemp)).sum := by
    intro data baseTemp
    have h := foldl_add_map (fun day : DailyAgg D =>
      max 0 (day.temperature.average - baseTemp)) data 0
    simpa [calculateGrowingDegreeDays] using h
  refine ⟨?_, ?_, ?_, ?_⟩
  · intro sqrtFn current forecast
    exact ⟨rfl, le_max_left 0 _⟩
  · intro data baseTemp
    refine ⟨hsum data baseTemp, ?_⟩
    rw [hsum data baseTemp]
    apply List.sum_nonneg
    intro x hx
    rcases List.mem_map.mp hx with ⟨day, _, hd⟩
    exact hd ▸ le_max_left 0 _
  · intro data; rfl
  · intro day baseTemp
    constructor
    · rw [hsum [day] baseTemp]
      apply List.sum_nonneg
      intro x hx
      rcases List.mem_map.mp hx with ⟨d, _, hd⟩
      exact hd ▸ le_max_left 0 _
    · intro hle
      rw [hsum [day] baseTemp]
      simp [max_eq_left, sub_nonpos.mpr hle]

/-- C9 witness: the vanishing-contribution hypothesis discharged at a concrete
day whose average temperature (8) is at most the base (10). -/
theorem C9_growing_degree_days_witness :
    calculateGrowingDegreeDays [mkDay 0 3 13 8] 10 = 0 :=
  ((C9_growing_degree_days ℕ).2.2.2 (mkDay 0 3 13 8) 10).2 (by norm_num [mkDay])

/-- C7: the `frostRisk` flag computed by `calculateAgriculturalInsights` is
true iff one of the first 3 upcoming daily aggregates has `temperature.min`
less than 2; in particular next-3-day minimums [3, 4, 6] give `false` and
[1, 5, 6] give `true`. -/
theorem C7_frost_risk_flag :
    (∀ (D : Type) (sqrtFn : ℚ → ℚ) (current : CurrentData)
        (forecast : List (DailyAgg D)),
        (calculateAgriculturalInsights sqrtFn current forecast).frostRisk = true
          ↔ ∃ day ∈ forecast.take 3, day.temperature.min < 2)
  ∧ (calculateAgriculturalInsights (fun x => x) (mkCur 20 50 5)
        [mkDay 0 3 13 8, mkDay 1 4 14 9, mkDay 2 6 16 11]).frostRisk = false
  ∧ (calculateAgriculturalInsights (fun x => x) (mkCur 20 50 5)
        [mkDay 0 1 11 6, mkDay 1 5 15 10, mkDay 2 6 16 11]).frostRisk = true := by
  refine ⟨?_, ?_, ?_⟩
  · intro D sqrtFn current forecast
    simp [calculateAgriculturalInsights, List.any_eq_true]
  · decide
  · decide

/-- C2: `generateIrrigationAdvice` returns "skip" exactly when cumulative
precipitation over the first 16 forecast samples exceeds 5 mm (regardless of
temperature and humidity); below that threshold the recommendation is the
first matching water-stress tier, checked extreme → high → moderate →
monitor. -/
theorem C2_irrigation_cascade (D : Type) (current : CurrentData)
    (fd : List (ForecastItem D)) :
    ((generateIrrigationAdvice current fd).recommendation = .skip
      ↔ 5 < ((fd.take 16).map ForecastItem.precipitation).sum)
  ∧ (¬ 5 < ((fd.take 16).map ForecastItem.precipitation).sum →
      (((generateIrrigationAdvice current fd).recommendation = .immediate
          ↔ 35 < current.temperature ∧ current.humidity < 35)
      ∧ ((generateIrrigationAdvice current fd).recommendation = .within24h
          ↔ ¬(35 < current.temperature ∧ current.humidity < 35)
            ∧ (30 < current.temperature ∧ current.humidity < 40))
      ∧ ((generateIrrigationAdvice current fd).recommendation = .within48h
          ↔ ¬(35 < current.temperature ∧ current.humidity < 35)
            ∧ ¬(30 < current.temperature ∧ current.humidity < 40)
            ∧ (25 < current.temperature ∧ current.humidity < 50))
      ∧ ((generateIrrigationAdvice current fd).recommendation = .monitor
          ↔ ¬(35 < current.temperature ∧ current.humidity < 35)
            ∧ ¬(30 < current.temperature ∧ current.humidity < 40)
            ∧ ¬(25 < current.temperature ∧ current.humidity < 50)))) := by
  have hr : (fd.take 16).foldl (fun s i => s + i.precipitation) (0 : ℚ)
      = ((fd.take 16).map ForecastItem.precipitation).sum := by
    simpa using foldl_add_map ForecastItem.precipitation (fd.take 16) 0
  simp only [generateIrrigationAdvice, hr]
  split_ifs with h1 h2 h3 h4 <;> simp_all

/-- C2 witness: with 6 mm of forecast rain the advice is "skip" even under
extreme heat stress (38 °C, 20 % humidity); with no rain and 36 °C / 30 %
the cascade's first tier fires. -/
theorem C2_irrigation_cascade_witness :
    (generateIrrigationAdvice (mkCur 38 20 5) [mkItem 0 20 50 5 6]).recommendation
      = .skip
  ∧ (generateIrrigationAdvice (mkCur 36 30 5)
      ([] : List (ForecastItem ℕ))).recommendation = .immediate :=
  ⟨(C2_irrigation_cascade ℕ (mkCur 38 20 5) [mkItem 0 20 50 5 6]).1.mpr
      (by norm_num [mkItem]),
   ((C2_irrigation_cascade ℕ (mkCur 36 30 5) []).2 (by norm_num)).1.mpr
      (by norm_num [mkCur])⟩

/-- C6: for a non-empty forecast, `analyzeFrostRisk` reports as `temperature`
the true minimum over the first 8 samples' temperatures, and maps it to
exactly one tier through defining, mutually exclusive and jointly exhaustive
ranges: critical ≤ −2 < high ≤ 0 < moderate ≤ 2 < low ≤ 5 < none. -/
theorem C6_frost_tiers (D : Type) (currentTemp : ℚ)
    (fd : List (ForecastItem D)) (hne : fd ≠ []) :
    ∃ t, (analyzeFrostRisk currentTemp fd).temperature = t
      ∧ t ∈ (fd.take 8).map ForecastItem.temperature
      ∧ (∀ x ∈ (fd.take 8).map ForecastItem.temperature, t ≤ x)
      ∧ ((analyzeFrostRisk currentTemp fd).risk = .critical ↔ t ≤ -2)
      ∧ ((analyzeFrostRisk currentTemp fd).risk = .high ↔ -2 < t ∧ t ≤ 0)
      ∧ ((analyzeFrostRisk currentTemp fd).risk = .moderate ↔ 0 < t ∧ t ≤ 2)
      ∧ ((analyzeFrostRisk currentTemp fd).risk = .low ↔ 2 < t ∧ t ≤ 5)
      ∧ ((analyzeFrostRisk currentTemp fd).risk = .none ↔ 5 < t) := by
  match fd, hne with
  | f :: rest, _ =>
    have hmin := foldl_min_spec ((rest.take 7).map ForecastItem.temperature) f.temperature
    refine ⟨((rest.take 7).map ForecastItem.temperature).foldl min f.temperature,
      ?_, ?_, ?_, ?_, ?_, ?_, ?_, ?_⟩ <;>
      simp only [analyzeFrostRisk, List.take_succ_cons, List.map_cons]
    · split_ifs <;> rfl
    · exact List.mem_cons.mpr (List.mem_cons.mp hmin.2)
    · intro x hx
      rcases List.mem_cons.mp hx with hxf | hxm
      · exact hxf ▸ hmin.1.1
      · exact hmin.1.2 x hxm
    all_goals split_ifs with h1 h2 h3 h4 <;> simp_all <;> (intros; linarith)


/-- C6 witness: the non-emptiness hypothesis discharged at a one-sample
forecast at −3 °C, which is classified "critical". -/
theorem C6_frost_tiers_witness :
    ∃ t, (analyzeFrostRisk 20 [mkItem 0 (-3) 50 5 0]).temperature = t
      ∧ t ∈ ([mkItem 0 (-3) 50 5 0].take 8).map ForecastItem.temperature
      ∧ (∀ x ∈ ([mkItem 0 (-3) 50 5 0].take 8).map ForecastItem.temperature, t ≤ x)
      ∧ ((analyzeFrostRisk 20 [mkItem 0 (-3) 50 5 0]).risk = .critical ↔ t ≤ -2)
      ∧ ((analyzeFrostRisk 20 [mkItem 0 (-3) 50 5 0]).risk = .high ↔ -2 < t ∧ t ≤ 0)
      ∧ ((analyzeFrostRisk 20 [mkItem 0 (-3) 50 5 0]).risk = .moderate ↔ 0 < t ∧ t ≤ 2)
      ∧ ((analyzeFrostRisk 20 [mkItem 0 (-3) 50 5 0]).risk = .low ↔ 2 < t ∧ t ≤ 5)
      ∧ ((analyzeFrostRisk 20 [mkItem 0 (-3) 50 5 0]).risk = .none ↔ 5 < t) :=
  C6_frost_tiers ℕ 20 [mkItem 0 (-3) 50 5 0] (by simp)

/-- The advice lines appended by `generateOverallAdvice` are pairwise distinct
from the optimal-conditions line. -/
theorem advice_lines_distinct :
    optimalLine ≠ urgentLine ∧ optimalLine ≠ highLine ∧ optimalLine ≠ mediumLine
  ∧ optimalLine ≠ sprayLine ∧ optimalLine ≠ rainLine ∧ optimalLine ≠ updatesLine := by
  decide

/-- C8: `generateOverallAdvice` returns priority urgent iff frost is critical
or heat stress extreme or irrigation immediate; else high iff frost high or
heat stress high or irrigation within 24 h; else medium iff frost moderate or
heat stress moderate or irrigation within 48 h; else low — and the
optimal-conditions advice line is in the advice list exactly when frost risk
and heat-stress risk are both "none", independently of the priority. -/
theorem C8_priority_synthesis (frost : FrostAlert) (irrigation : IrrigationAdvice)
    (spraying : SprayingWindow) (heatStress : HeatStressAlert) :
    ((generateOverallAdvice frost irrigation spraying heatStress).1 = .urgent
      ↔ frost.risk = .critical ∨ heatStress.risk = .extreme
        ∨ irrigation.recommendation = .immediate)
  ∧ ((generateOverallAdvice frost irrigation spraying heatStress).1 = .high
      ↔ ¬(frost.risk = .critical ∨ heatStress.risk = .extreme
            ∨ irrigation.recommendation = .immediate)
        ∧ (frost.risk = .high ∨ heatStress.risk = .high
            ∨ irrigation.recommendation = .within24h))
  ∧ ((generateOverallAdvice frost irrigation spraying heatStress).1 = .medium
      ↔ ¬(frost.risk = .critical ∨ heatStress.risk = .extreme
            ∨ irrigation.recommendation = .immediate)
        ∧ ¬(frost.risk = .high ∨ heatStress.risk = .high
            ∨ irrigation.recommendation = .within24h)
        ∧ (frost.risk = .moderate ∨ heatStress.risk = .moderate
            ∨ irrigation.recommendation = .within48h))
  ∧ ((generateOverallAdvice frost irrigation spraying heatStress).1 = .low
      ↔ ¬(frost.risk = .critical ∨ heatStress.risk = .extreme
            ∨ irrigation.recommendation = .immediate)
        ∧ ¬(frost.risk = .high ∨ heatStress.risk = .high
            ∨ irrigation.recommendation = .within24h)
        ∧ ¬(frost.risk = .moderate ∨ heatStress.risk = .moderate
            ∨ irrigation.recommendation = .within48h))
  ∧ (optimalLine ∈ (generateOverallAdvice frost irrigation spraying heatStress).2
      ↔ frost.risk = .none ∧ heatStress.risk = .none) := by
  obtain ⟨d1, d2, d3, d4, d5, d6⟩ := advice_lines_distinct
  unfold generateOverallAdvice
  split_ifs <;> simp_all

/-- C3 (amended): the crop-advisory and irrigation entry points succeed
exactly when both fetches are successful and carry payloads — any failed
fetch yields a `{success: false, error, …}` envelope (never an escaped
exception, since the functions are total) — but the frost-alert entry point
succeeds exactly when the *forecast* fetch is successful and carries a
payload: an unsuccessful current-weather fetch is tolerated there, the
default temperature 20 being substituted. -/
theorem C3_fail_fast_envelopes (D : Type) [DecidableEq D] (nowHour : ℕ)
    (cur : Envelope CurrentPayload) (fc : Envelope (ForecastPayload D)) :
    ((getCropAdvisory nowHour cur fc).success = true
      ↔ cur.success = true ∧ fc.success = true
        ∧ cur.data.isSome = true ∧ fc.data.isSome = true)
  ∧ ((getCropAdvisory nowHour cur fc).success = false →
      (getCropAdvisory nowHour cur fc).error.isSome = true
      ∧ (getCropAdvisory nowHour cur fc).data = none)
  ∧ ((getIrrigationAdvice cur fc).success = true
      ↔ cur.success = true ∧ fc.success = true
        ∧ cur.data.isSome = true ∧ fc.data.isSome = true)
  ∧ ((getIrrigationAdvice cur fc).success = false →
      (getIrrigationAdvice cur fc).error.isSome = true
      ∧ (getIrrigationAdvice cur fc).data = none)
  ∧ ((getFrostAlert cur fc).success = true
      ↔ fc.success = true ∧ fc.data.isSome = true)
  ∧ ((getFrostAlert cur fc).success = false →
      (getFrostAlert cur fc).error.isSome = true
      ∧ (getFrostAlert cur fc).data = none) := by
  obtain ⟨cs, cd, ce⟩ := cur
  obtain ⟨fs, fd, fe⟩ := fc
  cases cs <;> cases fs <;> cases cd <;> cases fd <;>
    simp [getCropAdvisory, getIrrigationAdvice, getFrostAlert]

/-- C3 witness: the failure-envelope implications discharged at a concrete
failed current-weather fetch joined with a successful forecast fetch. -/
theorem C3_fail_fast_envelopes_witness :
    ((getCropAdvisory 9
        { success := false, data := none, error := some "Weather API error" }
        { success := true, data := some { forecast := [mkItem 0 20 50 5 0] }
          error := none }).error.isSome = true
    ∧ (getCropAdvisory 9
        { success := false, data := none, error := some "Weather API error" }
        { success := true, data := some { forecast := [mkItem 0 20 50 5 0] }
          error := none }).data = none)
  ∧ ((getIrrigationAdvice
        { success := false, data := none, error := some "Weather API error" }
        ({ success := true, data := some { forecast := [mkItem 0 20 50 5 0] }
           error := none } : Envelope (ForecastPayload ℕ))).error.isSome = true
    ∧ (getIrrigationAdvice
        { success := false, data := none, error := some "Weather API error" }
        ({ success := true, data := some { forecast := [mkItem 0 20 50 5 0] }
           error := none } : Envelope (ForecastPayload ℕ))).data = none) :=
  ⟨(C3_fail_fast_envelopes ℕ 9
      { success := false, data := none, error := some "Weather API error" }
      { success := true, data := some { forecast := [mkItem 0 20 50 5 0] }
        error := none }).2.1 (by rfl),
   (C3_fail_fast_envelopes ℕ 9
      { success := false, data := none, error := some "Weather API error" }
      { success := true, data := some { forecast := [mkItem 0 20 50 5 0] }
        error := none }).2.2.2.1 (by rfl)⟩

/-- C3 counterexample: the claim as stated is false — the frost-alert entry
point reports success although the current-weather fetch was unsuccessful
(the forecast fetch succeeded). -/
theorem C3_frost_alert_tolerates_failed_current :
    (getFrostAlert
      { success := false, data := none, error := some "Weather API error" }
      ({ success := true, data := some { forecast := [mkItem 0 20 50 5 0] }
         error := none } : Envelope (ForecastPayload ℕ))).success = true := by
  rfl

/-- C4 (amended): `calculateAgriculturalInsights` computes evapotranspiration
as `max 0 (0.0023 · (T + 17.8) · sqrt(range) · (T + 273.16)/273.16 · 2.45)`
where `range` is `|max − min|` of the first upcoming daily aggregate — except
that the fallback 10 is substituted exactly when that aggregate is
unavailable *or* when its `max − min` equals 0 (JS `||` treats the falsy `0`
like an absent value). -/
theorem C4_evapotranspiration (D : Type) (sqrtFn : ℚ → ℚ) (current : CurrentData)
    (forecast : List (DailyAgg D)) :
    ((calculateAgriculturalInsights sqrtFn current forecast).evapotranspiration
      = max 0 ((0.0023 * (current.temperature + 17.8) * sqrtFn (etRangeArg forecast)
          * (current.temperature + 273.16) / 273.16) * 2.45))
  ∧ (forecast = [] → etRangeArg forecast = 10)
  ∧ (∀ d rest, forecast = d :: rest →
      (d.temperature.max - d.temperature.min = 0 → etRangeArg forecast = 10)
    ∧ (d.temperature.max - d.temperature.min ≠ 0 →
        etRangeArg forecast = |d.temperature.max - d.temperature.min|)) := by
  refine ⟨rfl, ?_, ?_⟩
  · intro h; subst h; rfl
  · intro d rest h
    subst h
    constructor
    · intro h0; simp [etRangeArg, h0]
    · intro hne; simp [etRangeArg, hne]

/-- C4 witness: the fallback characterizations discharged at a concrete empty
forecast and at a concrete first aggregate whose range is 5. -/
theorem C4_evapotranspiration_witness :
    etRangeArg ([] : List (DailyAgg ℕ)) = 10
  ∧ etRangeArg [mkDay 0 15 20 18] = |(mkDay 0 15 20 18).temperature.max
      - (mkDay 0 15 20 18).temperature.min| :=
  ⟨(C4_evapotranspiration ℕ (fun x => x) (mkCur 20 50 5) []).2.1 rfl,
   ((C4_evapotranspiration ℕ (fun x => x) (mkCur 20 50 5)
      [mkDay 0 15 20 18]).2.2 (mkDay 0 15 20 18) [] rfl).2 (by norm_num [mkDay])⟩

/-- C4 counterexample: at a concrete available first aggregate with
`max = min = 20` the claim as stated predicts the range `|max − min| = 0`
(no fallback), but the code substitutes 10 — observable in the
evapotranspiration value (with the square root modelled by the identity
function): the code's result differs from the claim's formula. -/
theorem C4_zero_range_fallback :
    etRangeArg [mkDay 0 20 20 20] = 10
  ∧ (calculateAgriculturalInsights (fun x => x) (mkCur 20 50 5)
      [mkDay 0 20 20 20]).evapotranspiration
    ≠ max 0 ((0.0023 * ((20 : ℚ) + 17.8)
        * |(mkDay 0 20 20 20).temperature.max - (mkDay 0 20 20 20).temperature.min|
        * ((20 : ℚ) + 273.16) / 273.16) * 2.45) := by
  constructor
  · norm_num [etRangeArg, mkDay]
  · norm_num [calculateAgriculturalInsights, etRangeArg, mkDay, mkCur]

/-- An indexed existence over `enum` whose predicate only reads the index is
an existence over positions. -/
theorem exists_enum_index {α : Type} (l : List α) (q : ℕ → Prop) :
    (∃ p ∈ l.enum, q p.1) ↔ ∃ i < l.length, q i := by
  constructor
  · rintro ⟨⟨i, a⟩, hm, hq⟩
    exact ⟨i, (List.mem_enum hm).1, hq⟩
  · rintro ⟨i, hi, hq⟩
    exact ⟨(i, l.get ⟨i, hi⟩),
      by simp [List.mem_enum_iff_getElem?, List.getElem?_eq_getElem hi], hq⟩

/-- C5 (amended): when `analyzeSprayingConditions` classifies conditions as
suitable (wind ≤ 20, temperature ≤ 30, and at least one good-window sample
among the next 8), the best-time hint is "early morning" exactly when some
good-window sample's wall-clock hour, computed as (current hour + 3 × that
sample's *index within the filtered good-window list*) mod 24, falls in
[6, 10].  (The source's `filter((_, index) => …)` receives the index within
the already-filtered array, not the sample's offset among the next 8.) -/
theorem C5_spraying_best_time (D : Type) [DecidableEq D] (nowHour : ℕ)
    (current : CurrentData) (fd : List (ForecastItem D))
    (hw : ¬ 20 < current.windSpeed) (ht : ¬ 30 < current.temperature)
    (hg : 0 < ((fd.take 8).filter fun item => decide (goodWindow item)).length) :
    (analyzeSprayingConditions nowHour current fd).suitable = true
  ∧ ((analyzeSprayingConditions nowHour current fd).bestTime
      = "Early morning (6-10 AM) recommended for optimal results"
    ↔ ∃ i < ((fd.take 8).filter fun item => decide (goodWindow item)).length,
        6 ≤ (nowHour + i * 3) % 24 ∧ (nowHour + i * 3) % 24 ≤ 10) := by
  have hiff : 0 < (((fd.take 8).filter fun item => decide (goodWindow item)).enum.filter
        fun p => decide (6 ≤ (nowHour + p.1 * 3) % 24 ∧ (nowHour + p.1 * 3) % 24 ≤ 10)).length
      ↔ ∃ i < ((fd.take 8).filter fun item => decide (goodWindow item)).length,
          6 ≤ (nowHour + i * 3) % 24 ∧ (nowHour + i * 3) % 24 ≤ 10 := by
    rw [List.length_pos, Ne, List.filter_eq_nil_iff]
    push_neg
    simpa using exists_enum_index
      ((fd.take 8).filter fun item => decide (goodWindow item))
      (fun i => 6 ≤ (nowHour + i * 3) % 24 ∧ (nowHour + i * 3) % 24 ≤ 10)
  unfold analyzeSprayingConditions
  rw [if_neg hw, if_neg ht, if_pos hg]
  refine ⟨rfl, ?_⟩
  rw [← hiff]
  dsimp only
  split_ifs with hm
  · exact iff_of_true rfl hm
  · exact iff_of_false (by decide) hm

/-- C5 witness: the suitable-branch hypotheses discharged at a concrete calm
current measurement with a single good forecast sample, at 06:00, where the
first good-window index gives hour 6 and the hint is "early morning". -/
theorem C5_spraying_best_time_witness :
    (analyzeSprayingConditions 6 (mkCur 20 50 5) [mkItem 0 20 50 5 0]).suitable = true
  ∧ ((analyzeSprayingConditions 6 (mkCur 20 50 5) [mkItem 0 20 50 5 0]).bestTime
      = "Early morning (6-10 AM) recommended for optimal results"
    ↔ ∃ i < (([mkItem 0 20 50 5 0].take 8).filter
          fun item => decide (goodWindow item)).length,
        6 ≤ (6 + i * 3) % 24 ∧ (6 + i * 3) % 24 ≤ 10) :=
  C5_spraying_best_time ℕ 6 (mkCur 20 50 5) [mkItem 0 20 50 5 0]
    (by decide) (by decide) (by decide)

/-- C5 counterexample: the claim as stated is false — with the current hour
06:00 and the only good-window sample sitting at offset 2 among the next 8
(so the claim's wall-clock hour is (6 + 3·2) mod 24 = 12 ∉ [6, 10]), the code
still reports the "early morning" hint, because it numbers the sample by its
index (0) within the filtered good-window list. -/
theorem C5_best_time_offset_mismatch :
    (analyzeSprayingConditions 6 (mkCur 20 50 5)
        [mkItem 0 20 50 30 0, mkItem 1 20 50 30 0, mkItem 2 20 50 5 0]).suitable = true
  ∧ (analyzeSprayingConditions 6 (mkCur 20 50 5)
        [mkItem 0 20 50 30 0, mkItem 1 20 50 30 0, mkItem 2 20 50 5 0]).bestTime
      = "Early morning (6-10 AM) recommended for optimal results"
  ∧ ¬ ∃ p ∈ ([mkItem 0 20 50 30 0, mkItem 1 20 50 30 0,
        mkItem 2 20 50 5 0].take 8).enum,
      goodWindow p.2 ∧ 6 ≤ (6 + p.1 * 3) % 24 ∧ (6 + p.1 * 3) % 24 ≤ 10 := by
  refine ⟨by decide, by decide, by decide⟩

/-- `reduce((s, x) => s + x, a)` is `a` plus the list sum. -/
theorem foldl_add (l : List ℚ) : ∀ a : ℚ, l.foldl (fun s x => s + x) a = a + l.sum := by
  induction l with
  | nil => simp
  | cons x xs ih => intro a; simp [ih]; ring

/-- The spread minimum of a non-empty list is at most the average of the
list, which is at most the spread maximum (averages as in `mkDailyAgg`). -/
theorem listMin_le_avg_le_listMax (l : List ℚ) (hne : l ≠ []) :
    listMin l ≤ (l.foldl (fun s x => s + x) (0 : ℚ)) / (l.length : ℚ)
  ∧ (l.foldl (fun s x => s + x) (0 : ℚ)) / (l.length : ℚ) ≤ listMax l := by
  match l, hne with
  | t :: ts, _ =>
    have hmin := foldl_min_spec ts t
    have hmax := foldl_max_spec ts t
    have hlen : (0 : ℚ) < ((t :: ts).length : ℚ) := by
      have : 0 < (t :: ts).length := Nat.succ_pos ts.length
      exact_mod_cast this
    have hlb : ∀ x ∈ t :: ts, listMin (t :: ts) ≤ x := by
      intro x hx
      rcases List.mem_cons.mp hx with hxt | hxm
      · exact hxt ▸ hmin.1.1
      · exact hmin.1.2 x hxm
    have hub : ∀ x ∈ t :: ts, x ≤ listMax (t :: ts) := by
      intro x hx
      rcases List.mem_cons.mp hx with hxt | hxm
      · exact hxt ▸ hmax.1.1
      · exact hmax.1.2 x hxm
    have h1 := length_mul_le_sum (t :: ts) (listMin (t :: ts)) hlb
    have h2 := sum_le_length_mul (t :: ts) (listMax (t :: ts)) hub
    rw [foldl_add (t :: ts) 0, zero_add]
    constructor
    · rw [le_div_iff₀ hlen]; linarith
    · rw [div_le_iff₀ hlen]; linarith

/-- Every group built by `insertSample` steps from groups that are non-empty
is non-empty. -/
theorem insertSample_groups_ne_nil {D : Type} [DecidableEq D] :
    ∀ (m : List (D × List (ForecastItem D))) (s : ForecastItem D),
      (∀ p ∈ m, p.2 ≠ []) → ∀ p ∈ insertSample m s, p.2 ≠ [] := by
  intro m
  induction m with
  | nil =>
      intro s _ p hp
      rcases List.mem_singleton.mp hp with rfl
      simp
  | cons q rest ih =>
      intro s hm p hp
      obtain ⟨d, g⟩ := q
      by_cases hd : d = s.date
      · rw [insertSample, if_pos hd] at hp
        rcases List.mem_cons.mp hp with rfl | hmem
        · simp
        · exact hm p (List.mem_cons_of_mem _ hmem)
      · rw [insertSample, if_neg hd] at hp
        rcases List.mem_cons.mp hp with rfl | hmem
        · exact hm (d, g) (List.mem_cons_self _ _)
        · exact ih s (fun r hr => hm r (List.mem_cons_of_mem _ hr)) p hmem

/-- Every group of `groupByDate` is non-empty. -/
theorem groupByDate_groups_ne_nil {D : Type} [DecidableEq D]
    (samples : List (ForecastItem D)) : ∀ p ∈ groupByDate samples, p.2 ≠ [] := by
  suffices h : ∀ (l : List (ForecastItem D)) (m : List (D × List (ForecastItem D))),
      (∀ p ∈ m, p.2 ≠ []) → ∀ p ∈ l.foldl insertSample m, p.2 ≠ [] by
    exact h samples [] (by simp)
  intro l
  induction l with
  | nil => intro m hm; simpa using hm
  | cons s rest ih =>
      intro m hm
      exact ih (insertSample m s) (insertSample_groups_ne_nil m s hm)

/-- The temperature bounds of one aggregated day group. -/
theorem mkDailyAgg_temp_bounds {D : Type} [DecidableEq D] (date : D)
    (items : List (ForecastItem D)) (hne : items ≠ []) :
    (mkDailyAgg date items).temperature.min ≤ (mkDailyAgg date items).temperature.average
  ∧ (mkDailyAgg date items).temperature.average ≤ (mkDailyAgg date items).temperature.max := by
  have hne' : items.map (·.temperature) ≠ [] := by
    simpa [List.map_eq_nil_iff] using hne
  have h := listMin_le_avg_le_listMax (items.map (·.temperature)) hne'
  simpa [mkDailyAgg] using h

/-- C10: for every non-empty day group the produced aggregate satisfies
`temperature.min ≤ temperature.average ≤ temperature.max`; a single-sample
group has all three equal to that sample's temperature; consequently every
aggregate in a `getDailyForecast` output satisfies the bounds. -/
theorem C10_daily_aggregate_temperature (D : Type) [DecidableEq D] :
    (∀ (date : D) (items : List (ForecastItem D)), items ≠ [] →
        (mkDailyAgg date items).temperature.min ≤ (mkDailyAgg date items).temperature.average
      ∧ (mkDailyAgg date items).temperature.average ≤ (mkDailyAgg date items).temperature.max)
  ∧ (∀ (date : D) (s : ForecastItem D),
        (mkDailyAgg date [s]).temperature.min = s.temperature
      ∧ (mkDailyAgg date [s]).temperature.max = s.temperature
      ∧ (mkDailyAgg date [s]).temperature.average = s.temperature)
  ∧ (∀ (samples : List (ForecastItem D)), ∀ a ∈ getDailyForecast samples,
        a.temperature.min ≤ a.temperature.average
      ∧ a.temperature.average ≤ a.temperature.max) := by
  refine ⟨fun date items hne => mkDailyAgg_temp_bounds date items hne, ?_, ?_⟩
  · intro date s
    refine ⟨rfl, rfl, ?_⟩
    show ((0 : ℚ) + s.temperature) / ((1 : ℕ) : ℚ) = s.temperature
    norm_num
  · intro samples a ha
    rcases List.mem_map.mp ha with ⟨p, hp, hpa⟩
    exact hpa ▸ mkDailyAgg_temp_bounds p.1 p.2 (groupByDate_groups_ne_nil samples p hp)

/-- C10 witness: the non-emptiness hypothesis discharged at a concrete
two-sample day group. -/
theorem C10_daily_aggregate_temperature_witness :
    (mkDailyAgg 0 [mkItem 0 10 50 5 0, mkItem 0 20 50 5 0]).temperature.min
      ≤ (mkDailyAgg 0 [mkItem 0 10 50 5 0, mkItem 0 20 50 5 0]).temperature.average
  ∧ (mkDailyAgg 0 [mkItem 0 10 50 5 0, mkItem 0 20 50 5 0]).temperature.average
      ≤ (mkDailyAgg 0 [mkItem 0 10 50 5 0, mkItem 0 20 50 5 0]).temperature.max :=
  (C10_daily_aggregate_temperature ℕ).1 0 [mkItem 0 10 50 5 0, mkItem 0 20 50 5 0]
    (by simp)

/-- `insertSample` leaves the key sequence unchanged when the date is already
present and appends it at the end otherwise. -/
theorem keys_insertSample {D : Type} [DecidableEq D] :
    ∀ (m : List (D × List (ForecastItem D))) (s : ForecastItem D),
      (insertSample m s).map Prod.fst =
        if s.date ∈ m.map Prod.fst then m.map Prod.fst
        else m.map Prod.fst ++ [s.date] := by
  intro m
  induction m with
  | nil => intro s; simp [insertSample]
  | cons q rest ih =>
      intro s
      obtain ⟨d, g⟩ := q
      by_cases hd : d = s.date
      · rw [insertSample, if_pos hd]
        simp [hd.symm]
      · rw [insertSample, if_neg hd]
        have hne : ¬ s.date = d := fun h => hd h.symm
        by_cases hmem : s.date ∈ rest.map Prod.fst
        · simp [ih s, hmem, hne]
        · simp [ih s, hmem, hne]

/-- Membership in the accumulated key sequence of the grouping fold. -/
theorem mem_keys_foldl {D : Type} [DecidableEq D] :
    ∀ (l : List (ForecastItem D)) (m : List (D × List (ForecastItem D))) (k : D),
      k ∈ (l.foldl insertSample m).map Prod.fst
        ↔ k ∈ m.map Prod.fst ∨ k ∈ l.map ForecastItem.date := by
  intro l
  induction l with
  | nil => intro m k; simp
  | cons s rest ih =>
      intro m k
      rw [List.foldl_cons, ih (insertSample m s) k, keys_insertSample m s]
      by_cases hmem : s.date ∈ m.map Prod.fst
      · rw [if_pos hmem]
        simp only [List.map_cons, List.mem_cons]
        constructor
        · rintro (h | h)
          · exact Or.inl h
          · exact Or.inr (Or.inr h)
        · rintro (h | h | h)
          · exact Or.inl h
          · exact Or.inl (h ▸ hmem)
          · exact Or.inr h
      · rw [if_neg hmem]
        simp only [List.mem_append, List.mem_singleton, List.map_cons, List.mem_cons]
        tauto

/-- The grouping fold preserves distinctness of keys. -/
theorem nodup_keys_foldl {D : Type} [DecidableEq D] :
    ∀ (l : List (ForecastItem D)) (m : List (D × List (ForecastItem D))),
      (m.map Prod.fst).Nodup → ((l.foldl insertSample m).map Prod.fst).Nodup := by
  intro l
  induction l with
  | nil => intro m hm; simpa using hm
  | cons s rest ih =>
      intro m hm
      rw [List.foldl_cons]
      apply ih
      rw [keys_insertSample m s]
      split_ifs with hmem
      · exact hm
      · simp [List.nodup_append, hm, hmem]

/-- The grouping fold adds one to the total group size per consumed sample. -/
theorem sumlen_foldl {D : Type} [DecidableEq D] :
    ∀ (l : List (ForecastItem D)) (m : List (D × List (ForecastItem D))),
      ((l.foldl insertSample m).map fun p => p.2.length).sum
        = ((m.map fun p => p.2.length).sum) + l.length := by
  intro l
  induction l with
  | nil => intro m; simp
  | cons s rest ih =>
      intro m
      rw [List.foldl_cons, ih (insertSample m s)]
      have hstep : ∀ (m' : List (D × List (ForecastItem D))),
          ((insertSample m' s).map fun p => p.2.length).sum
            = ((m'.map fun p => p.2.length).sum) + 1 := by
        intro m'
        induction m' with
        | nil => simp [insertSample]
        | cons q rest' ih' =>
            obtain ⟨d, g⟩ := q
            by_cases hd : d = s.date
            · rw [insertSample, if_pos hd]; simp; ring
            · rw [insertSample, if_neg hd]; simp [ih']; ring
      rw [hstep m]
      simp [List.length_cons]
      ring

/-- If the incoming samples are date-sorted and dominate every key already in
the accumulator, the grouping fold keeps the key sequence strictly sorted. -/
theorem sorted_keys_foldl {D : Type} [LinearOrder D] :
    ∀ (l : List (ForecastItem D)) (m : List (D × List (ForecastItem D))),
      ((m.map Prod.fst).Pairwise (· < ·)) →
      (∀ k ∈ m.map Prod.fst, ∀ t ∈ l, k ≤ t.date) →
      ((l.map ForecastItem.date).Pairwise (· ≤ ·)) →
      ((l.foldl insertSample m).map Prod.fst).Pairwise (· < ·) := by
  intro l
  induction l with
  | nil => intro m hm _ _; simpa using hm
  | cons s rest ih =>
      intro m hm hk hsorted
      rw [List.foldl_cons]
      have hsc : (∀ t ∈ rest, s.date ≤ t.date)
          ∧ List.Pairwise (· ≤ ·) (rest.map ForecastItem.date) := by
        simpa using hsorted
      have hhead : ∀ t ∈ rest, s.date ≤ t.date := hsc.1
      apply ih (insertSample m s)
      · rw [keys_insertSample m s]
        split_ifs with hmem
        · exact hm
        · rw [List.pairwise_append]
          refine ⟨hm, by simp, ?_⟩
          intro a ha b hb
          rcases List.mem_singleton.mp hb with rfl
          exact lt_of_le_of_ne (hk a ha s (List.mem_cons_self s rest))
            fun h => hmem (h ▸ ha)
      · intro k hkmem t ht
        rw [keys_insertSample m s] at hkmem
        split_ifs at hkmem with hmem
        · exact hk k hkmem t (List.mem_cons_of_mem s ht)
        · rcases List.mem_append.mp hkmem with h | h
          · exact hk k h t (List.mem_cons_of_mem s ht)
          · rcases List.mem_singleton.mp h with rfl
            exact hhead t ht
      · exact hsc.2

/-- The dates of the aggregates of `getDailyForecast` are the keys of the
grouping. -/
theorem dates_getDailyForecast {D : Type} [DecidableEq D]
    (samples : List (ForecastItem D)) :
    (getDailyForecast samples).map DailyAgg.date
      = (groupByDate samples).map Prod.fst := by
  rw [getDailyForecast, List.map_map]
  rfl

/-- C1: daily aggregation (both the forecast and the historical variant)
produces exactly one aggregate per distinct input date — the output date
multiset is duplicate-free and has exactly the input's dates — with the
per-day group sizes summing to the input length; empty input yields an empty
output; and date-sorted (chronological) input yields strictly ascending
output dates. -/
theorem C1_daily_aggregation_grouping (D : Type) [LinearOrder D]
    (samples : List (ForecastItem D)) :
    (((getDailyForecast samples).map DailyAgg.date).Nodup
      ∧ ∀ d, d ∈ (getDailyForecast samples).map DailyAgg.date
          ↔ d ∈ samples.map ForecastItem.date)
  ∧ (((getHistoricalDailyWeather samples).map DailyAgg.date).Nodup
      ∧ ∀ d, d ∈ (getHistoricalDailyWeather samples).map DailyAgg.date
          ↔ d ∈ samples.map ForecastItem.date)
  ∧ ((groupByDate samples).map fun p => p.2.length).sum = samples.length
  ∧ (samples = [] →
      getDailyForecast samples = [] ∧ getHistoricalDailyWeather samples = [])
  ∧ ((samples.map ForecastItem.date).Pairwise (· ≤ ·) →
      ((getDailyForecast samples).map DailyAgg.date).Pairwise (· < ·)
    ∧ ((getHistoricalDailyWeather samples).map DailyAgg.date).Pairwise (· < ·)) := by
  have hdates := dates_getDailyForecast samples
  have hperm : (getHistoricalDailyWeather samples).Perm (getDailyForecast samples) := by
    rw [getHistoricalDailyWeather, getDailyForecast]
    exact List.mergeSort_perm _ _
  have hpermd : ((getHistoricalDailyWeather samples).map DailyAgg.date).Perm
      ((getDailyForecast samples).map DailyAgg.date) := hperm.map _
  have hnodup : ((getDailyForecast samples).map DailyAgg.date).Nodup := by
    rw [hdates]; exact nodup_keys_foldl samples [] (by simp)
  have hmem : ∀ d, d ∈ (getDailyForecast samples).map DailyAgg.date
      ↔ d ∈ samples.map ForecastItem.date := by
    intro d
    rw [hdates]
    simpa using mem_keys_foldl samples [] d
  refine ⟨⟨hnodup, hmem⟩, ⟨hpermd.nodup_iff.mpr hnodup, ?_⟩, ?_, ?_, ?_⟩
  · intro d
    rw [hpermd.mem_iff]
    exact hmem d
  · simpa using sumlen_foldl samples []
  · rintro rfl
    constructor
    · rfl
    · simp [getHistoricalDailyWeather, groupByDate]
  · intro hs
    have hfore : ((getDailyForecast samples).map DailyAgg.date).Pairwise (· < ·) := by
      rw [hdates]
      exact sorted_keys_foldl samples [] (by simp) (by simp) hs
    refine ⟨hfore, ?_⟩
    have hpw : List.Pairwise
        (fun a b : DailyAgg D => (decide (a.date ≤ b.date)) = true)
        (getHistoricalDailyWeather samples) := by
      rw [getHistoricalDailyWeather]
      exact List.sorted_mergeSort
        (fun a b c hab hbc => by
          simp only [decide_eq_true_eq] at hab hbc ⊢
          exact le_trans hab hbc)
        (fun a b => by rcases le_total a.date b.date with h | h <;> simp [h]) _
    have hle : ((getHistoricalDailyWeather samples).map DailyAgg.date).Pairwise (· ≤ ·) :=
      List.Pairwise.map DailyAgg.date
        (fun a b hab => by simpa using hab) hpw
    have hnd : ((getHistoricalDailyWeather samples).map DailyAgg.date).Pairwise (· ≠ ·) :=
      hpermd.nodup_iff.mpr hnodup
    exact (hle.and hnd).imp fun h => lt_of_le_of_ne h.1 h.2

/-- C1 witness: the empty-input and sorted-input hypotheses discharged
concretely — an empty sample list aggregates to empty outputs, and a
chronological two-day sample list yields strictly ascending aggregate
dates. -/
theorem C1_daily_aggregation_grouping_witness :
    (getDailyForecast ([] : List (ForecastItem ℕ)) = []
      ∧ getHistoricalDailyWeather ([] : List (ForecastItem ℕ)) = [])
  ∧ (((getDailyForecast [mkItem 0 20 50 5 0, mkItem 1 21 50 5 0]).map
        DailyAgg.date).Pairwise (· < ·)
    ∧ ((getHistoricalDailyWeather [mkItem 0 20 50 5 0, mkItem 1 21 50 5 0]).map
        DailyAgg.date).Pairwise (· < ·)) :=
  ⟨(C1_daily_aggregation_grouping ℕ []).2.2.2.1 rfl,
   (C1_daily_aggregation_grouping ℕ [mkItem 0 20 50 5 0, mkItem 1 21 50 5 0]).2.2.2.2
     (by decide)⟩

end FarmAssist
